import Mathlib

/-!
# Verification of the real-time stream processing and alerting engine

Shallow embedding of `backend/ai-engine/services/realtime_processor.py`
(`RealtimeProcessorService`) together with theorems checking the
natural-language specification against it.

Modelling conventions:
* `datetime` timestamps are integers (seconds); `timedelta(minutes=m)` is `60*m`.
* metric values are rationals (`ℚ`);
* Python dicts keyed by strings are association lists with the dict's
  read/write semantics (`getM` reads with the `defaultdict(float)` /
  `.get(k, 0)` default of `0`, `setM` overwrites or appends a binding);
* a `deque(maxlen=N)` append is `dequeAppend`: when the buffer is at
  capacity the oldest (leftmost) element is evicted;
* the event payload `data` is modelled by the only field the engine reads
  from it, `data.get('is_error', False)`.
-/

namespace RealtimeProcessor

/-- Exact rational division of two counts, `a / b` (used only where the
source guards the denominator away from `0`).  Expressed through
`Rat.divInt` so that concrete instances evaluate inside the kernel;
`ratio_eq_div` identifies it with `(a : ℚ) / (b : ℚ)`. -/
def ratio (a b : ℕ) : ℚ := Rat.divInt (a : ℤ) (b : ℤ)

/-- Rational multiplication, expressed through `Rat.divInt` so that concrete
instances evaluate inside the kernel; `qmul_eq_mul` identifies it with
`x * y`. -/
def qmul (x y : ℚ) : ℚ := Rat.divInt (x.num * y.num) ((x.den : ℤ) * (y.den : ℤ))

/-- Association-list read with default 0, the behaviour of
`defaultdict(float)` and of `metrics.get(name, 0)`. -/
def getM (m : List (String × ℚ)) (k : String) : ℚ :=
  match m with
  | [] => 0
  | (k', v) :: rest => if k' = k then v else getM rest k

/-- Association-list write, the behaviour of `d[k] = v` / `d.update({...})`:
overwrite the existing binding or append a new one. -/
def setM {α : Type} (m : List (String × α)) (k : String) (v : α) : List (String × α) :=
  match m with
  | [] => [(k, v)]
  | (k', v') :: rest => if k' = k then (k, v) :: rest else (k', v') :: setM rest k v

/-- Association-list lookup without a default, the behaviour of `k in d` /
`d[k]`. -/
def lookupM {α : Type} (m : List (String × α)) (k : String) : Option α :=
  match m with
  | [] => none
  | (k', v) :: rest => if k' = k then some v else lookupM rest k

/-- `RealtimeEvent` dataclass.  `is_error` models `data.get('is_error', False)`,
the only part of the `data` payload the engine inspects. -/
structure RealtimeEvent where
  site_id : String
  event_type : String
  timestamp : ℤ
  user_id : Option String := none
  session_id : Option String := none
  is_error : Bool := false
deriving DecidableEq

/-- `StreamingWindow` dataclass: `events` is the `deque(maxlen=window_size)`
buffer (oldest first), `metrics` the `defaultdict(float)` snapshot. -/
structure StreamingWindow where
  window_size : ℕ
  events : List RealtimeEvent
  metrics : List (String × ℚ)
  last_update : ℤ
deriving DecidableEq

/-- Append to a `deque(maxlen=cap)`: when the buffer is at (or beyond)
capacity, the leftmost element is evicted before the append. -/
def dequeAppend (cap : ℕ) (buf : List RealtimeEvent) (e : RealtimeEvent) :
    List RealtimeEvent :=
  if cap ≤ buf.length then buf.tail ++ [e] else buf ++ [e]

/-- The window created by `start_realtime_analysis`:
`StreamingWindow(window_size=1000, events=deque(maxlen=1000),
metrics=defaultdict(float), last_update=now)`. -/
def freshWindow (now : ℤ) : StreamingWindow :=
  { window_size := 1000, events := [], metrics := [], last_update := now }

/-- `_update_stream_metrics`: events of the trailing minute
(`e.timestamp > current_time - timedelta(minutes=1)`). -/
def recentEvents (events : List RealtimeEvent) (now : ℤ) : List RealtimeEvent :=
  events.filter (fun e => now - 60 < e.timestamp)

/-- Distinct session ids among events that carry one (`sessions_data` keys,
in first-occurrence order). -/
def sessionIds (evs : List RealtimeEvent) : List String :=
  (evs.filterMap (fun e => e.session_id)).dedup

/-- Number of events of a given session (`len(sessions_data[sid])`). -/
def sessionEventCount (evs : List RealtimeEvent) (sid : String) : ℕ :=
  (evs.filter (fun e => e.session_id == some sid)).length

/-- Sessions with exactly one event (`bounced_sessions`). -/
def bouncedSessions (evs : List RealtimeEvent) : ℕ :=
  ((sessionIds evs).filter (fun sid => sessionEventCount evs sid == 1)).length

/-- Distinct user ids among events that carry one (`active_users`). -/
def activeUsers (evs : List RealtimeEvent) : ℕ :=
  ((evs.filterMap (fun e => e.user_id)).dedup).length

/-- Conversion event types of `_update_stream_metrics`. -/
def conversionTypes : List String := ["purchase", "signup", "conversion"]

/-- `_update_stream_metrics`, restricted to the trailing one-minute lookback
of the window's own buffer.  `bounce_rate` is only written when at least one
session is present; `conversion_rate` and `error_rate` divide by
`max(len(recent_events), 1)`. -/
def updateStreamMetrics (stream : StreamingWindow) (now : ℤ) : StreamingWindow :=
  let recent := recentEvents stream.events now
  let totalSessions := (sessionIds recent).length
  let bounced := bouncedSessions recent
  let conversions := (recent.filter (fun e => conversionTypes.contains e.event_type)).length
  let errors := (recent.filter (fun e => e.event_type == "error" || e.is_error)).length
  let m1 := setM stream.metrics "events_per_minute" (recent.length : ℚ)
  let m2 := setM m1 "page_views_per_minute"
    ((recent.filter (fun e => e.event_type == "page_view")).length : ℚ)
  let m3 := setM m2 "unique_sessions" ((sessionIds recent).length : ℚ)
  let m4 := setM m3 "active_users" (activeUsers recent : ℚ)
  let m5 := if 0 < totalSessions then
      setM m4 "bounce_rate" (ratio bounced totalSessions)
    else m4
  let m6 := setM m5 "conversion_rate" (ratio conversions (max recent.length 1))
  let m7 := setM m6 "error_rate" (ratio errors (max recent.length 1))
  { stream with metrics := m7 }

/-- Per-site part of `_process_events_batch`: append the site's events to the
window's deque, recompute the metric snapshot, stamp `last_update`. -/
def processSiteEvents (w : StreamingWindow) (evs : List RealtimeEvent) (now : ℤ) :
    StreamingWindow :=
  let w1 := { w with events := evs.foldl (dequeAppend w.window_size) w.events }
  let w2 := updateStreamMetrics w1 now
  { w2 with last_update := now }

/-- `_process_events_batch`: group the batch by `site_id`; a site with an
active window receives its events in batch order; sites without an active
window drop their events silently; windows of sites absent from the batch are
untouched. -/
def processEventsBatch (streams : List (String × StreamingWindow))
    (batch : List RealtimeEvent) (now : ℤ) : List (String × StreamingWindow) :=
  streams.map (fun p =>
    let siteEvents := batch.filter (fun e => e.site_id == p.1)
    if siteEvents.isEmpty then p else (p.1, processSiteEvents p.2 siteEvents now))

/-- An alert rule of `_setup_alert_rules`.  `threshold` /
`threshold_multiplier` / `window_minutes` / `cooldown_minutes` are `Option`s
mirroring the `'threshold' in rule` membership tests and the
`rule.get(k, default)` reads of the source. -/
structure AlertRule where
  metric : String
  threshold : Option ℚ := none
  threshold_multiplier : Option ℚ := none
  window_minutes : Option ℕ := none
  severity : String
  cooldown_minutes : Option ℕ := none
deriving DecidableEq

/-- The six rules installed by `_setup_alert_rules`, in dict order. -/
def defaultAlertRules : List (String × AlertRule) :=
  [ ("traffic_spike",
      { metric := "page_views_per_minute", threshold_multiplier := some 3,
        window_minutes := some 5, severity := "high", cooldown_minutes := some 30 }),
    ("traffic_drop",
      { metric := "page_views_per_minute", threshold_multiplier := some (Rat.divInt 3 10),
        window_minutes := some 10, severity := "medium", cooldown_minutes := some 15 }),
    ("high_bounce_rate",
      { metric := "bounce_rate", threshold := some (Rat.divInt 8 10),
        window_minutes := some 15, severity := "medium", cooldown_minutes := some 30 }),
    ("conversion_drop",
      { metric := "conversion_rate", threshold_multiplier := some (Rat.divInt 5 10),
        window_minutes := some 30, severity := "high", cooldown_minutes := some 60 }),
    ("server_error_spike",
      { metric := "error_rate", threshold := some (Rat.divInt 5 100),
        window_minutes := some 5, severity := "critical", cooldown_minutes := some 10 }),
    ("unusual_user_behavior",
      { metric := "unusual_sessions_rate", threshold := some (Rat.divInt 1 10),
        window_minutes := some 20, severity := "medium", cooldown_minutes := some 45 }) ]

/-- `_get_historical_average`: average of the rule's metric over the events of
the trailing `window_minutes` minutes of the window's own buffer; `0` when no
event falls in that interval; metrics other than `page_views_per_minute` and
`error_rate` fall back to the current snapshot value. -/
def getHistoricalAverage (stream : StreamingWindow) (metric : String)
    (window_minutes : ℕ) (now : ℤ) : ℚ :=
  let windowStart := now - 60 * (window_minutes : ℤ)
  let relevant := stream.events.filter (fun e => windowStart < e.timestamp)
  if relevant.isEmpty then 0
  else if metric = "page_views_per_minute" then
    ratio (relevant.filter (fun e => e.event_type == "page_view")).length window_minutes
  else if metric = "error_rate" then
    ratio (relevant.filter (fun e => e.event_type == "error")).length (max relevant.length 1)
  else getM stream.metrics metric

/-- `_check_alert_condition`: absolute rules fire on
`current_value > rule['threshold']`; relative rules compare against the
historical average over `rule.get('window_minutes', 60)` and only when that
average is positive (`multiplier > 1` detects spikes, otherwise drops); any
other rule shape returns `False`. -/
def checkAlertCondition (stream : StreamingWindow) (rule : AlertRule) (now : ℤ) : Bool :=
  let current := getM stream.metrics rule.metric
  match rule.threshold with
  | some t => decide (t < current)
  | none =>
    match rule.threshold_multiplier with
    | some m =>
      let avg := getHistoricalAverage stream rule.metric (rule.window_minutes.getD 60) now
      if 0 < avg then
        if 1 < m then decide (qmul avg m < current) else decide (current < qmul avg m)
      else false
    | none => false

/-- The fields of the `AlertData` constructed by `_create_alert` that the
engine computes (ids, localized messages and recommended actions omitted). -/
structure AlertData where
  alert_type : String
  severity : String
  metric_name : String
  current_value : ℚ
  threshold_value : ℚ
  triggered_at : ℤ
deriving DecidableEq

/-- `_create_alert` (the computed fields): `threshold_value` is
`rule.get('threshold', 0)`. -/
def createAlert (rule_name : String) (rule : AlertRule) (stream : StreamingWindow)
    (now : ℤ) : AlertData :=
  { alert_type := rule_name, severity := rule.severity, metric_name := rule.metric,
    current_value := getM stream.metrics rule.metric,
    threshold_value := rule.threshold.getD 0, triggered_at := now }

/-- `_check_alerts` cooldown key: `f"{site_id}:{rule_name}"`. -/
def cooldownKey (site rule_name : String) : String := site ++ ":" ++ rule_name

/-- One iteration of the `_check_alerts` rule loop: skip while
`current_time < alert_cooldowns[key]`; otherwise, if the condition holds,
emit the alert and set the cooldown to
`current_time + timedelta(minutes=rule.get('cooldown_minutes', 30))`. -/
def checkAlertsStep (site : String) (stream : StreamingWindow) (now : ℤ)
    (acc : List (String × ℤ) × List AlertData) (r : String × AlertRule) :
    List (String × ℤ) × List AlertData :=
  let key := cooldownKey site r.1
  let skip := match lookupM acc.1 key with
    | some next_time => decide (now < next_time)
    | none => false
  if skip then acc
  else if checkAlertCondition stream r.2 now then
    (setM acc.1 key (now + 60 * ((r.2.cooldown_minutes.getD 30) : ℤ)),
     acc.2 ++ [createAlert r.1 r.2 stream now])
  else acc

/-- `_check_alerts` for one site: fold the rule loop over the rule list,
returning the updated cooldown map and the alerts emitted this cycle. -/
def checkAlerts (rules : List (String × AlertRule)) (site : String)
    (stream : StreamingWindow) (cooldowns : List (String × ℤ)) (now : ℤ) :
    List (String × ℤ) × List AlertData :=
  rules.foldl (checkAlertsStep site stream now) (cooldowns, [])

/-- A sequence of alert-check cycles for one site (each invocation of
`_check_alerts` by `_alert_processor`, at its `datetime.utcnow()` and with
whatever window state it then observes), threading the cooldown map and
collecting every emitted alert. -/
def runAlertCycles (rules : List (String × AlertRule)) (site : String)
    (cycles : List (ℤ × StreamingWindow)) (cooldowns : List (String × ℤ)) :
    List (String × ℤ) × List AlertData :=
  match cycles with
  | [] => (cooldowns, [])
  | c :: rest =>
    let r := checkAlerts rules site c.2 cooldowns c.1
    let r' := runAlertCycles rules site rest r.1
    (r'.1, r.2 ++ r'.2)

/-- A raw event of an `ingest` batch (`event_data` element of
`process_realtime_data`).  `timestamp = none` models a missing field
(defaulted to now); `timestamp = some none` a present but unparsable string
(`datetime.fromisoformat` raises); `timestamp = some (some t)` a string
parsing to `t`. -/
structure RawEvent where
  etype : Option String := none
  timestamp : Option (Option ℤ) := none
  user_id : Option String := none
  session_id : Option String := none
  is_error : Bool := false
deriving DecidableEq

/-- The `RealtimeEvent(...)` construction inside `process_realtime_data`:
missing `type` defaults to `'unknown'`, missing `timestamp` to
`datetime.utcnow()`; an unparsable timestamp raises (modelled as `error`). -/
def parseRawEvent (site : String) (now : ℤ) (r : RawEvent) :
    Except String RealtimeEvent :=
  match r.timestamp with
  | some none => .error "Invalid isoformat string"
  | some (some t) =>
      .ok { site_id := site, event_type := r.etype.getD "unknown", timestamp := t,
            user_id := r.user_id, session_id := r.session_id, is_error := r.is_error }
  | none =>
      .ok { site_id := site, event_type := r.etype.getD "unknown", timestamp := now,
            user_id := r.user_id, session_id := r.session_id, is_error := r.is_error }

/-- The event-construction loop of `process_realtime_data`: all events are
parsed before any is enqueued, and the first failure aborts the whole call
(the enclosing `try`/`except` returns an error result). -/
def parseEvents (site : String) (now : ℤ) : List RawEvent → Except String (List RealtimeEvent)
  | [] => .ok []
  | r :: rest =>
    match parseRawEvent site now r with
    | .error msg => .error msg
    | .ok e =>
      match parseEvents site now rest with
      | .error msg => .error msg
      | .ok es => .ok (e :: es)

/-- `processing_queue.put` on the `asyncio.Queue()` created in `__init__`
(no `maxsize` argument, hence unbounded): the event is appended.  The
`Option` result is where a capacity failure would be reported; `put` on an
unbounded queue never fails. -/
def queuePut (q : List RealtimeEvent) (e : RealtimeEvent) :
    Option (List RealtimeEvent) :=
  some (q ++ [e])

/-- The enqueue loop of `process_realtime_data`. -/
def queuePutAll (q : List RealtimeEvent) : List RealtimeEvent → List RealtimeEvent
  | [] => q
  | e :: es =>
    match queuePut q e with
    | some q' => queuePutAll q' es
    | none => q

/-- `process_realtime_data` restricted to its intake effect: parse the batch
(first malformed timestamp aborts the call with an error and leaves the queue
untouched), then enqueue every parsed event; on success the returned count is
`len(processed_events)`. -/
def processRealtimeData (queue : List RealtimeEvent) (site : String)
    (raw : List RawEvent) (now : ℤ) : List RealtimeEvent × Except String ℕ :=
  match parseEvents site now raw with
  | .error msg => (queue, .error msg)
  | .ok evs => (queuePutAll queue evs, .ok evs.length)

/-- `configure_thresholds`: store the override map for the site under
`f"custom_thresholds:{site_id}"` with a 24-hour (86400 s) expiry.  The store
models the Redis keyspace this method writes to. -/
def configureThresholds (store : List (String × (List (String × ℚ) × ℤ)))
    (site : String) (thresholds : List (String × ℚ)) (now : ℤ) :
    List (String × (List (String × ℚ) × ℤ)) :=
  setM store ("custom_thresholds:" ++ site) (thresholds, now + 86400)

/-- The `traffic_prediction` record of `_generate_predictions`. -/
structure TrafficPrediction where
  next_5_minutes : ℚ
  confidence : ℚ
  trend : String
deriving DecidableEq

/-- Page views of the trailing `i` minutes
(`e.event_type == 'page_view' and e.timestamp > utcnow() - timedelta(minutes=i)`). -/
def pageViewsLastMinutes (events : List RealtimeEvent) (now : ℤ) (i : ℕ) : ℕ :=
  (events.filter (fun e => e.event_type == "page_view"
      && decide (now - 60 * (i : ℤ) < e.timestamp))).length

/-- `_generate_predictions`: empty result below 10 buffered events; otherwise
the mean of the page-view counts of the last 1..5 minutes, scaled by 1.1, at
fixed confidence 0.75. -/
def generatePredictions (w : StreamingWindow) (now : ℤ) : Option TrafficPrediction :=
  if w.events.length < 10 then none
  else
    let recent_page_views := (List.range' 1 5).map (pageViewsLastMinutes w.events now)
    if recent_page_views.isEmpty then none
    else some
      { next_5_minutes := qmul (ratio recent_page_views.sum recent_page_views.length) (Rat.divInt 11 10),
        confidence := Rat.divInt 3 4, trend := "stable" }

/-- The service state touched by the operations the claims quantify over:
the per-site window registry `active_streams` and the intake
`processing_queue`. -/
structure ServiceState where
  active_streams : List (String × StreamingWindow)
  processing_queue : List RealtimeEvent
deriving DecidableEq

/-- Fresh service (`__init__`). -/
def initialState : ServiceState :=
  { active_streams := [], processing_queue := [] }

/-- `start_realtime_analysis`: create the window only if the site has none. -/
def startRealtimeAnalysis (s : ServiceState) (site : String) (now : ℤ) : ServiceState :=
  match lookupM s.active_streams site with
  | some _ => s
  | none => { s with active_streams := s.active_streams ++ [(site, freshWindow now)] }

/-- `stop_realtime_analysis`: delete the site's window if present. -/
def stopRealtimeAnalysis (s : ServiceState) (site : String) : ServiceState :=
  { s with active_streams := s.active_streams.filter (fun p => !(p.1 == site)) }

/-- An operation of the external interface / worker loops that mutates the
modelled state: session start, session stop, an `ingest`
(`process_realtime_data`), or one `_main_processor` dispatch draining up to
`n` queued events into `_process_events_batch`. -/
inductive Op where
  | start (site : String) (now : ℤ)
  | stop (site : String)
  | ingest (site : String) (raw : List RawEvent) (now : ℤ)
  | dispatch (n : ℕ) (now : ℤ)
deriving DecidableEq

/-- Apply one operation to the service state. -/
def applyOp (s : ServiceState) : Op → ServiceState
  | .start site now => startRealtimeAnalysis s site now
  | .stop site => stopRealtimeAnalysis s site
  | .ingest site raw now =>
      { s with processing_queue := (processRealtimeData s.processing_queue site raw now).1 }
  | .dispatch n now =>
      { active_streams := processEventsBatch s.active_streams (s.processing_queue.take n) now,
        processing_queue := s.processing_queue.drop n }

/-- Run a sequence of operations from a state. -/
def runOps (s : ServiceState) (ops : List Op) : ServiceState :=
  ops.foldl applyOp s

/-- Modelled from the spec: the alert condition as the specification words
it — absolute rules fire on `current_value > threshold`; relative rules fire
on `current_value > baseline * multiplier` for `multiplier > 1` (spikes) and
on `current_value < baseline * multiplier` for `multiplier < 1` (drops),
with no positive-baseline guard.  For comparison with
`checkAlertCondition`. -/
def specCheckAlertCondition (stream : StreamingWindow) (rule : AlertRule) (now : ℤ) : Bool :=
  let current := getM stream.metrics rule.metric
  match rule.threshold with
  | some t => decide (t < current)
  | none =>
    match rule.threshold_multiplier with
    | some m =>
      let avg := getHistoricalAverage stream rule.metric (rule.window_minutes.getD 60) now
      if 1 < m then decide (qmul avg m < current) else decide (current < qmul avg m)
    | none => false

/-- Modelled from the spec: rule evaluation with tenant-threshold-override
precedence — an unexpired override stored by `configure_threshold` for the
rule's metric replaces the rule's default threshold.  No code under `src/`
implements this read path; the definition follows the spec's words, for
comparison with `checkAlertCondition` (which takes no override store at
all). -/
def specCheckConditionWithOverride (store : List (String × (List (String × ℚ) × ℤ)))
    (site : String) (stream : StreamingWindow) (rule : AlertRule) (now : ℤ) : Bool :=
  let effective_rule :=
    match lookupM store ("custom_thresholds:" ++ site) with
    | some (thresholds, expiry) =>
      if now < expiry then
        match lookupM thresholds rule.metric with
        | some v => { rule with threshold := some v }
        | none => rule
      else rule
    | none => rule
  checkAlertCondition stream effective_rule now

/-! ## Concrete instances used by counterexamples and witnesses -/

/-- A window whose snapshot reports 5 page views per minute while its event
buffer is empty (so every baseline interval is empty). -/
def wx : StreamingWindow :=
  { window_size := 1000, events := [], metrics := [("page_views_per_minute", 5)],
    last_update := 0 }

/-- The `traffic_spike` rule of `_setup_alert_rules`. -/
def trafficSpikeRule : AlertRule :=
  { metric := "page_views_per_minute", threshold_multiplier := some 3,
    window_minutes := some 5, severity := "high", cooldown_minutes := some 30 }

/-- The `high_bounce_rate` rule of `_setup_alert_rules`. -/
def highBounceRateRule : AlertRule :=
  { metric := "bounce_rate", threshold := some (Rat.divInt 8 10),
    window_minutes := some 15, severity := "medium", cooldown_minutes := some 30 }

/-- A window whose bounce rate is 0.85: above the default 0.8 threshold and
below a 0.95 override. -/
def w6 : StreamingWindow :=
  { window_size := 1000, events := [], metrics := [("bounce_rate", Rat.divInt 17 20)],
    last_update := 0 }

/-- The override store after
`configure_thresholds("site-1", {"bounce_rate": 0.95})` at time 0. -/
def store6 : List (String × (List (String × ℚ) × ℤ)) :=
  configureThresholds [] "site-1" [("bounce_rate", Rat.divInt 19 20)] 0

/-- A window with a stale bounce rate of 1 and no events. -/
def w7 : StreamingWindow :=
  { window_size := 1000, events := [], metrics := [("bounce_rate", 1)], last_update := 0 }

/-- A window with one recent page view, giving a positive 5-minute
baseline. -/
def wpos : StreamingWindow :=
  { window_size := 1000,
    events := [{ site_id := "site-1", event_type := "page_view", timestamp := -10 }],
    metrics := [("page_views_per_minute", 5)], last_update := 0 }

/-- A well-formed raw event (parsable timestamp). -/
def goodRaw : RawEvent := { etype := some "page_view", timestamp := some (some 3) }

/-- A malformed raw event: its timestamp string does not parse. -/
def badRaw : RawEvent := { etype := some "page_view", timestamp := some none }

/-- An arbitrary event. -/
def dummyEvent : RealtimeEvent :=
  { site_id := "site-1", event_type := "page_view", timestamp := 0 }

/-- A page-view event at time `t`. -/
def pv (t : ℤ) : RealtimeEvent :=
  { site_id := "site-1", event_type := "page_view", timestamp := t }

/-- A window buffering exactly 10 events. -/
def w10 : StreamingWindow :=
  { window_size := 1000, events := (List.range 10).map (fun i => pv i),
    metrics := [], last_update := 0 }

/-- A window buffering exactly 9 events. -/
def w9 : StreamingWindow := { w10 with events := w10.events.take 9 }

/-- A window whose error rate of 1 keeps the `server_error_spike` condition
true continuously. -/
def wErr : StreamingWindow :=
  { window_size := 1000, events := [], metrics := [("error_rate", 1)], last_update := 0 }

/-- A short operation trace: a session start, an ingest of two events, one
dispatch. -/
def ops3 : List Op :=
  [Op.start "site-1" 0, Op.ingest "site-1" [goodRaw, goodRaw] 1, Op.dispatch 5 2]

/-- The registry entry produced by `ops3`. -/
def p3 : String × StreamingWindow :=
  (runOps initialState ops3).active_streams.getD 0 ("", freshWindow 0)

/-- The three ratio-type metrics of the snapshot lie in `[0, 1]`. -/
def RatesBounded (m : List (String × ℚ)) : Prop :=
  0 ≤ getM m "bounce_rate" ∧ getM m "bounce_rate" ≤ 1 ∧
  0 ≤ getM m "conversion_rate" ∧ getM m "conversion_rate" ≤ 1 ∧
  0 ≤ getM m "error_rate" ∧ getM m "error_rate" ≤ 1

/-- Invariant of a registry window: the capacity is the configured 1000, the
buffer respects it, and the ratio metrics are in range. -/
def WindowWF (w : StreamingWindow) : Prop :=
  w.window_size = 1000 ∧ w.events.length ≤ 1000 ∧ RatesBounded w.metrics

/-- Invariant of the service state: every registered window is
well-formed. -/
def StateWF (s : ServiceState) : Prop :=
  ∀ p ∈ s.active_streams, WindowWF p.2

/-!
## Theorems
-/

/-- `ratio` is division in `ℚ`. -/
theorem ratio_eq_div (a b : ℕ) : ratio a b = (a : ℚ) / (b : ℚ) := by
  rw [ratio, Rat.divInt_eq_div]
  push_cast
  ring

/-- `qmul` is multiplication in `ℚ`. -/
theorem qmul_eq_mul (x y : ℚ) : qmul x y = x * y := by
  rw [qmul, Rat.divInt_eq_div]
  push_cast
  rw [← div_mul_div_comm, Rat.num_div_den, Rat.num_div_den]

/-- Reading the key just written. -/
theorem getM_setM_self (m : List (String × ℚ)) (k : String) (v : ℚ) :
    getM (setM m k v) k = v := by
  induction m with
  | nil => simp [setM, getM]
  | cons p rest ih =>
    by_cases h : p.1 = k
    · simp [setM, getM, h]
    · simp only [setM, getM, h, if_false, ih]

/-- Writing one key leaves the others unchanged. -/
theorem getM_setM_ne (m : List (String × ℚ)) (k k' : String) (v : ℚ) (h : k' ≠ k) :
    getM (setM m k v) k' = getM m k' := by
  have h' : ¬ (k = k') := fun hh => h hh.symm
  induction m with
  | nil => simp [setM, getM, h']
  | cons p rest ih =>
    by_cases hp : p.1 = k
    · simp [setM, getM, hp, h']
    · simp only [setM, getM, hp, if_false, ih]

/-- Looking up the key just written. -/
theorem lookupM_setM_self {α : Type} (m : List (String × α)) (k : String) (v : α) :
    lookupM (setM m k v) k = some v := by
  induction m with
  | nil => simp [setM, lookupM]
  | cons p rest ih =>
    by_cases h : p.1 = k
    · simp [setM, lookupM, h]
    · simp only [setM, lookupM, h, if_false, ih]

/-- Writing one key leaves lookups of the others unchanged. -/
theorem lookupM_setM_ne {α : Type} (m : List (String × α)) (k k' : String) (v : α)
    (h : k' ≠ k) : lookupM (setM m k v) k' = lookupM m k' := by
  have h' : ¬ (k = k') := fun hh => h hh.symm
  induction m with
  | nil => simp [setM, lookupM, h']
  | cons p rest ih =>
    by_cases hp : p.1 = k
    · simp [setM, lookupM, hp, h']
    · simp only [setM, lookupM, hp, if_false, ih]

/-- A ratio of counts is nonnegative. -/
theorem ratio_nonneg (a b : ℕ) : 0 ≤ ratio a b := by
  rw [ratio_eq_div]
  positivity

/-- A ratio of counts with numerator at most the denominator is at most 1. -/
theorem ratio_le_one (a b : ℕ) (h : a ≤ b) : ratio a b ≤ 1 := by
  rw [ratio_eq_div]
  rcases Nat.eq_zero_or_pos b with hb | hb
  · subst hb
    simp [Nat.le_zero.mp h]
  · rw [div_le_one (by exact_mod_cast hb)]
    exact_mod_cast h

/-- A deque append never grows the buffer beyond a positive capacity. -/
theorem dequeAppend_length_le (cap : ℕ) (buf : List RealtimeEvent) (e : RealtimeEvent)
    (hcap : 0 < cap) (h : buf.length ≤ cap) : (dequeAppend cap buf e).length ≤ cap := by
  unfold dequeAppend
  split
  · next hfull =>
    have hne : buf ≠ [] := by
      intro hb
      subst hb
      simp at hfull
      omega
    simp only [List.length_append, List.length_tail, List.length_cons, List.length_nil]
    omega
  · next hroom =>
    simp only [List.length_append, List.length_cons, List.length_nil]
    omega

/-- Folding deque appends never grows the buffer beyond a positive capacity. -/
theorem foldl_dequeAppend_length_le (cap : ℕ) (evs : List RealtimeEvent)
    (hcap : 0 < cap) :
    ∀ buf : List RealtimeEvent, buf.length ≤ cap →
      (evs.foldl (dequeAppend cap) buf).length ≤ cap := by
  induction evs with
  | nil => intro buf h; simpa using h
  | cons e rest ih =>
    intro buf h
    exact ih _ (dequeAppend_length_le cap buf e hcap h)

/-- C5 counterexample: the intake queue has no fixed capacity at which an
enqueue attempt fails — `asyncio.Queue()` is created without `maxsize`, so
`put` succeeds on a queue of any length (here: a queue already holding `C`
events for every candidate capacity `C`). -/
theorem C5_counterexample :
    ¬ ∃ C : ℕ, ∀ (q : List RealtimeEvent) (e : RealtimeEvent),
        C ≤ q.length → queuePut q e = none := by
  rintro ⟨C, h⟩
  have hC := h (List.replicate C dummyEvent) dummyEvent (by simp)
  simp [queuePut] at hC

/-- C5 amended: the intake queue is unbounded; an enqueue always succeeds
and appends the event, and no capacity error is ever surfaced to the caller
of `ingest`. -/
theorem C5_enqueue_always_succeeds (q : List RealtimeEvent) (e : RealtimeEvent) :
    queuePut q e = some (q ++ [e]) := rfl

/-- C6: `configure_thresholds` stores a tenant threshold override (here
`bounce_rate ↦ 0.95` for `site-1`, unexpired at evaluation time 0), yet
`_check_alert_condition` takes no override store at all and fires
`high_bounce_rate` from the default 0.8 threshold on a bounce rate of 0.85,
where the spec's override-respecting evaluation would not fire. -/
theorem C6_override_never_consulted :
    lookupM store6 "custom_thresholds:site-1"
        = some ([("bounce_rate", Rat.divInt 19 20)], 86400) ∧
    checkAlertCondition w6 highBounceRateRule 0 = true ∧
    specCheckConditionWithOverride store6 "site-1" w6 highBounceRateRule 0 = false := by
  refine ⟨by decide, by decide, by decide⟩

/-- C10: a relative-multiplier rule (no absolute threshold) never fires when
the historical baseline is 0, when no event falls in the baseline interval,
or on a freshly filled window with an empty buffer. -/
theorem C10_zero_baseline_suppression (stream : StreamingWindow) (rule : AlertRule)
    (now : ℤ) (m : ℚ) (ht : rule.threshold = none)
    (hm : rule.threshold_multiplier = some m) :
    (getHistoricalAverage stream rule.metric (rule.window_minutes.getD 60) now = 0 →
      checkAlertCondition stream rule now = false) ∧
    (stream.events.filter
        (fun e => now - 60 * ((rule.window_minutes.getD 60 : ℕ) : ℤ) < e.timestamp) = [] →
      checkAlertCondition stream rule now = false) ∧
    (stream.events = [] → checkAlertCondition stream rule now = false) := by
  have havg0 : ∀ hz : getHistoricalAverage stream rule.metric
      (rule.window_minutes.getD 60) now = 0, checkAlertCondition stream rule now = false := by
    intro hz
    unfold checkAlertCondition
    rw [ht, hm]
    simp only [hz, lt_irrefl, if_false]
  have hfilter : ∀ hf : stream.events.filter
      (fun e => now - 60 * ((rule.window_minutes.getD 60 : ℕ) : ℤ) < e.timestamp) = [],
      getHistoricalAverage stream rule.metric (rule.window_minutes.getD 60) now = 0 := by
    intro hf
    unfold getHistoricalAverage
    simp only [hf, List.isEmpty_nil, if_true]
  refine ⟨havg0, fun hf => havg0 (hfilter hf), fun he => havg0 ?_⟩
  unfold getHistoricalAverage
  simp [he]

/-- C10 witness: on a freshly created window no relative rule
(`traffic_spike` here) fires. -/
theorem C10_witness : checkAlertCondition (freshWindow 0) trafficSpikeRule 100 = false :=
  (C10_zero_baseline_suppression (freshWindow 0) trafficSpikeRule 100 3 rfl rfl).2.2 rfl

/-- C9: `_generate_predictions` returns no prediction for a window buffering
fewer than 10 events, and a prediction with confidence in `[0, 1]` (0.75)
for a window at or above the floor. -/
theorem C9_forecast_floor (w : StreamingWindow) (now : ℤ) :
    (w.events.length < 10 → generatePredictions w now = none) ∧
    (10 ≤ w.events.length → ∃ p, generatePredictions w now = some p ∧
        0 ≤ p.confidence ∧ p.confidence ≤ 1) := by
  constructor
  · intro h
    unfold generatePredictions
    rw [if_pos h]
  · intro h
    unfold generatePredictions
    rw [if_neg (by omega), if_neg (by simp [List.range'])]
    exact ⟨_, rfl, by norm_num [Rat.divInt_eq_div], by norm_num [Rat.divInt_eq_div]⟩

/-- C9 witness: at 9 buffered events no prediction; at 10 a bounded-confidence
prediction. -/
theorem C9_witness :
    generatePredictions w9 600 = none ∧
    ∃ p, generatePredictions w10 600 = some p ∧ 0 ≤ p.confidence ∧ p.confidence ≤ 1 :=
  ⟨(C9_forecast_floor w9 600).1 (by decide), (C9_forecast_floor w10 600).2 (by decide)⟩

/-- C7 counterexample: a window whose lookback interval is empty but whose
snapshot still holds `bounce_rate = 1` from an earlier recomputation; after
`_update_stream_metrics` the bounce rate is still 1, not the 0 the claim
requires for every ratio-type metric. -/
theorem C7_counterexample :
    recentEvents w7.events 5 = [] ∧
    getM (updateStreamMetrics w7 5).metrics "bounce_rate" = 1 := by
  refine ⟨by decide, by decide⟩

/-- C7 (amended): when the lookback interval holds no events,
`_update_stream_metrics` sets `conversion_rate` and `error_rate` to 0, but
leaves `bounce_rate` at its previous snapshot value (0 only on a fresh
window) because the bounce-rate branch is skipped when no session is
present. -/
theorem C7_zero_denominator_default (stream : StreamingWindow) (now : ℤ)
    (h : recentEvents stream.events now = []) :
    getM (updateStreamMetrics stream now).metrics "conversion_rate" = 0 ∧
    getM (updateStreamMetrics stream now).metrics "error_rate" = 0 ∧
    getM (updateStreamMetrics stream now).metrics "bounce_rate"
      = getM stream.metrics "bounce_rate" := by
  have hz : ratio 0 (max 0 1) = 0 := by decide
  unfold updateStreamMetrics
  simp only [h, sessionIds, bouncedSessions, sessionEventCount, activeUsers,
    List.filterMap_nil, List.dedup_nil, List.filter_nil, List.length_nil,
    lt_irrefl, if_false, hz]
  refine ⟨?_, ?_, ?_⟩
  · rw [getM_setM_ne _ _ _ _ (by decide), getM_setM_self]
  · rw [getM_setM_self]
  · rw [getM_setM_ne _ _ _ _ (by decide), getM_setM_ne _ _ _ _ (by decide),
      getM_setM_ne _ _ _ _ (by decide), getM_setM_ne _ _ _ _ (by decide),
      getM_setM_ne _ _ _ _ (by decide), getM_setM_ne _ _ _ _ (by decide)]

/-- C7 witness: the empty-lookback window `w7`. -/
theorem C7_witness :
    getM (updateStreamMetrics w7 5).metrics "conversion_rate" = 0 ∧
    getM (updateStreamMetrics w7 5).metrics "error_rate" = 0 ∧
    getM (updateStreamMetrics w7 5).metrics "bounce_rate" = getM w7.metrics "bounce_rate" :=
  C7_zero_denominator_default w7 5 (by decide)

/-- C2 counterexample: for the relative `traffic_spike` rule (multiplier 3)
on a window whose snapshot reports 5 page views per minute but whose buffer
is empty, the claim's firing condition `current > baseline * 3` holds
(`5 > 0`), yet `_check_alert_condition` returns `False` because of its
positive-baseline guard. -/
theorem C2_counterexample :
    specCheckAlertCondition wx trafficSpikeRule 0 = true ∧
    checkAlertCondition wx trafficSpikeRule 0 = false := by
  refine ⟨by decide, by decide⟩

/-- C2 (amended): absolute rules fire iff `current_value > threshold`;
relative rules, **when the historical baseline is positive**, fire iff
`current_value > baseline * multiplier` for `multiplier > 1` and iff
`current_value < baseline * multiplier` otherwise, the baseline being
`_get_historical_average` over `rule.get('window_minutes', 60)`. -/
theorem C2_alert_condition_evaluation (stream : StreamingWindow) (rule : AlertRule)
    (now : ℤ) :
    (∀ t, rule.threshold = some t →
      (checkAlertCondition stream rule now = true ↔ t < getM stream.metrics rule.metric)) ∧
    (∀ m, rule.threshold = none → rule.threshold_multiplier = some m →
      0 < getHistoricalAverage stream rule.metric (rule.window_minutes.getD 60) now →
      (checkAlertCondition stream rule now = true ↔
        (if 1 < m then
          getHistoricalAverage stream rule.metric (rule.window_minutes.getD 60) now * m
            < getM stream.metrics rule.metric
        else
          getM stream.metrics rule.metric
            < getHistoricalAverage stream rule.metric (rule.window_minutes.getD 60) now * m))) := by
  constructor
  · intro t ht
    unfold checkAlertCondition
    rw [ht]
    simp only [decide_eq_true_eq]
  · intro m ht hm havg
    unfold checkAlertCondition
    rw [ht, hm]
    simp only [if_pos havg, qmul_eq_mul]
    split
    · simp only [decide_eq_true_eq]
    · simp only [decide_eq_true_eq]

/-- C2 witness: the absolute part at the `high_bounce_rate` rule, the
relative part at the `traffic_spike` rule over a window with a positive
baseline. -/
theorem C2_witness :
    (checkAlertCondition w6 highBounceRateRule 0 = true ↔
      Rat.divInt 8 10 < getM w6.metrics "bounce_rate") ∧
    (checkAlertCondition wpos trafficSpikeRule 0 = true ↔
      (if (1:ℚ) < 3 then
        getHistoricalAverage wpos "page_views_per_minute" 5 0 * 3
          < getM wpos.metrics "page_views_per_minute"
      else
        getM wpos.metrics "page_views_per_minute"
          < getHistoricalAverage wpos "page_views_per_minute" 5 0 * 3)) :=
  ⟨(C2_alert_condition_evaluation w6 highBounceRateRule 0).1 (Rat.divInt 8 10) rfl,
   (C2_alert_condition_evaluation wpos trafficSpikeRule 0).2 3 rfl rfl (by decide)⟩

/-- The enqueue loop appends every event: `put` on the unbounded queue never
fails. -/
theorem queuePutAll_eq_append (q evs : List RealtimeEvent) :
    queuePutAll q evs = q ++ evs := by
  induction evs generalizing q with
  | nil => simp [queuePutAll]
  | cons e es ih => simp [queuePutAll, queuePut, ih]

/-- A batch containing an unparsable timestamp makes the event-construction
loop raise. -/
theorem parseEvents_error_of_mem (site : String) (now : ℤ) (raw : List RawEvent)
    (h : ∃ r ∈ raw, r.timestamp = some none) :
    ∃ msg, parseEvents site now raw = Except.error msg := by
  induction raw with
  | nil => simp at h
  | cons r rest ih =>
    cases hp : parseRawEvent site now r with
    | error msg => exact ⟨msg, by simp [parseEvents, hp]⟩
    | ok e =>
      rcases h with ⟨r', hr', hbad⟩
      rcases List.mem_cons.mp hr' with he | hmem
      · have hbad' : r.timestamp = some none := he ▸ hbad
        have hcontra : parseRawEvent site now r = Except.error "Invalid isoformat string" := by
          unfold parseRawEvent
          rw [hbad']
        rw [hcontra] at hp
        exact Except.noConfusion hp
      · rcases ih ⟨r', hmem, hbad⟩ with ⟨msg, hm⟩
        exact ⟨msg, by simp [parseEvents, hp, hm]⟩

/-- With every timestamp parsable the event-construction loop returns one
event per raw event. -/
theorem parseEvents_ok_of_all_good (site : String) (now : ℤ) (raw : List RawEvent)
    (h : ∀ r ∈ raw, r.timestamp ≠ some none) :
    ∃ evs, parseEvents site now raw = Except.ok evs ∧ evs.length = raw.length := by
  induction raw with
  | nil => exact ⟨[], rfl, rfl⟩
  | cons r rest ih =>
    have hr := h r (List.mem_cons_self r rest)
    have hok : ∃ e, parseRawEvent site now r = Except.ok e := by
      unfold parseRawEvent
      cases ht : r.timestamp with
      | none => exact ⟨_, rfl⟩
      | some t? =>
        cases t? with
        | none => exact absurd ht hr
        | some t => exact ⟨_, rfl⟩
    rcases hok with ⟨e, he⟩
    rcases ih (fun r' hm => h r' (List.mem_cons_of_mem _ hm)) with ⟨evs, hevs, hlen⟩
    exact ⟨e :: evs, by simp [parseEvents, he, hevs], by simp [hlen]⟩

/-- C8 counterexample: the batch `[goodRaw, badRaw]` (one valid event, one
with an unparsable timestamp) does not yield a success result for the valid
remainder — the whole call errors and nothing is enqueued. -/
theorem C8_counterexample :
    (¬ ∃ n : ℕ, (processRealtimeData [] "site-1" [goodRaw, badRaw] 0).2 = Except.ok n) ∧
    (processRealtimeData [] "site-1" [goodRaw, badRaw] 0).1 = [] := by
  constructor
  · rintro ⟨n, hn⟩
    rw [show (processRealtimeData [] "site-1" [goodRaw, badRaw] 0).2
        = Except.error "Invalid isoformat string" from rfl] at hn
    exact Except.noConfusion hn
  · rfl

/-- C8 (amended): an event with an unparsable timestamp aborts the whole
ingest call — an error is returned and none of the batch's events is
enqueued; when every timestamp parses (missing fields are filled with
defaults, not dropped) all events are enqueued and counted. -/
theorem C8_validation_batch_abort (queue : List RealtimeEvent) (site : String)
    (raw : List RawEvent) (now : ℤ) :
    ((∃ r ∈ raw, r.timestamp = some none) →
      (processRealtimeData queue site raw now).1 = queue ∧
      ∃ msg, (processRealtimeData queue site raw now).2 = Except.error msg) ∧
    ((∀ r ∈ raw, r.timestamp ≠ some none) →
      (processRealtimeData queue site raw now).1.length = queue.length + raw.length ∧
      (processRealtimeData queue site raw now).2 = Except.ok raw.length) := by
  constructor
  · intro h
    rcases parseEvents_error_of_mem site now raw h with ⟨msg, hm⟩
    unfold processRealtimeData
    rw [hm]
    exact ⟨rfl, msg, rfl⟩
  · intro h
    rcases parseEvents_ok_of_all_good site now raw h with ⟨evs, hevs, hlen⟩
    unfold processRealtimeData
    rw [hevs]
    simp [queuePutAll_eq_append, hlen]

/-- C8 witness: a batch with a malformed timestamp is rejected whole; a batch
of two well-formed events is enqueued whole. -/
theorem C8_witness :
    ((processRealtimeData [] "site-1" [badRaw] 0).1 = [] ∧
      ∃ msg, (processRealtimeData [] "site-1" [badRaw] 0).2 = Except.error msg) ∧
    ((processRealtimeData [] "site-1" [goodRaw, goodRaw] 0).1.length = 0 + 2 ∧
      (processRealtimeData [] "site-1" [goodRaw, goodRaw] 0).2 = Except.ok 2) :=
  ⟨(C8_validation_batch_abort [] "site-1" [badRaw] 0).1 (by decide),
   (C8_validation_batch_abort [] "site-1" [goodRaw, goodRaw] 0).2 (by decide)⟩

/-- One iteration of the `_check_alerts` rule loop either leaves the
accumulator unchanged, or — only when the pair's own cooldown is not
active — fires: sets the pair's cooldown and appends its alert. -/
theorem checkAlertsStep_eq_or_fire (site : String) (stream : StreamingWindow)
    (now : ℤ) (acc : List (String × ℤ) × List AlertData) (r : String × AlertRule) :
    checkAlertsStep site stream now acc r = acc ∨
    ((∀ nt, lookupM acc.1 (cooldownKey site r.1) = some nt → ¬ now < nt) ∧
     checkAlertsStep site stream now acc r =
       (setM acc.1 (cooldownKey site r.1) (now + 60 * ((r.2.cooldown_minutes.getD 30) : ℤ)),
        acc.2 ++ [createAlert r.1 r.2 stream now])) := by
  unfold checkAlertsStep
  cases hl : lookupM acc.1 (cooldownKey site r.1) with
  | some nt =>
    by_cases hd : now < nt
    · left
      simp [hl, hd]
    · by_cases hc : checkAlertCondition stream r.2 now = true
      · right
        refine ⟨?_, by simp [hl, hd, hc]⟩
        intro nt' h'
        injection h' with h''
        rw [← h'']
        exact hd
      · left
        simp [hl, hd, hc]
  | none =>
    by_cases hc : checkAlertCondition stream r.2 now = true
    · right
      refine ⟨?_, by simp [hl, hc]⟩
      intro nt' h'
      exact Option.noConfusion h'
    · left
      simp [hl, hc]

/-- While `now` is before the cooldown entry of `(site, rn)`, one rule-loop
iteration preserves that entry and emits no alert of type `rn`. -/
theorem checkAlertsStep_inv (site : String) (stream : StreamingWindow) (now : ℤ)
    (rn : String) (nx : ℤ) (hn : now < nx)
    (acc : List (String × ℤ) × List AlertData) (r : String × AlertRule)
    (h1 : lookupM acc.1 (cooldownKey site rn) = some nx)
    (h2 : ∀ a ∈ acc.2, a.alert_type ≠ rn) :
    lookupM (checkAlertsStep site stream now acc r).1 (cooldownKey site rn) = some nx ∧
    ∀ a ∈ (checkAlertsStep site stream now acc r).2, a.alert_type ≠ rn := by
  rcases checkAlertsStep_eq_or_fire site stream now acc r with heq | ⟨hns, heq⟩
  · rw [heq]
    exact ⟨h1, h2⟩
  · rw [heq]
    have hk : cooldownKey site r.1 ≠ cooldownKey site rn := by
      intro hkk
      exact hns nx (hkk ▸ h1) hn
    constructor
    · rw [lookupM_setM_ne _ _ _ _ (fun hh => hk hh.symm)]
      exact h1
    · intro a ha
      rcases List.mem_append.mp ha with hmem | hmem
      · exact h2 a hmem
      · have ha' : a = createAlert r.1 r.2 stream now := by simpa using hmem
        rw [ha']
        show r.1 ≠ rn
        intro hr
        exact hk (by rw [hr])

/-- While `now` is before the cooldown entry of `(site, rn)`, a whole
`_check_alerts` cycle preserves that entry and emits no alert of type
`rn`. -/
theorem checkAlerts_inv (rules : List (String × AlertRule)) (site : String)
    (stream : StreamingWindow) (now : ℤ) (rn : String) (nx : ℤ) (hn : now < nx)
    (cds : List (String × ℤ))
    (h1 : lookupM cds (cooldownKey site rn) = some nx) :
    lookupM (checkAlerts rules site stream cds now).1 (cooldownKey site rn) = some nx ∧
    ∀ a ∈ (checkAlerts rules site stream cds now).2, a.alert_type ≠ rn := by
  unfold checkAlerts
  suffices hgen : ∀ (rs : List (String × AlertRule))
      (acc : List (String × ℤ) × List AlertData),
      lookupM acc.1 (cooldownKey site rn) = some nx →
      (∀ a ∈ acc.2, a.alert_type ≠ rn) →
      lookupM (rs.foldl (checkAlertsStep site stream now) acc).1 (cooldownKey site rn)
          = some nx ∧
      ∀ a ∈ (rs.foldl (checkAlertsStep site stream now) acc).2, a.alert_type ≠ rn by
    exact hgen rules (cds, []) h1 (by simp)
  intro rs
  induction rs with
  | nil => intro acc ha hb; exact ⟨ha, hb⟩
  | cons r rest ih =>
    intro acc ha hb
    rw [List.foldl_cons]
    have hstep := checkAlertsStep_inv site stream now rn nx hn acc r ha hb
    exact ih _ hstep.1 hstep.2

/-- While every cycle time is before the cooldown entry of `(site, rn)`, a
sequence of `_check_alerts` cycles preserves that entry and emits no alert
of type `rn`, whatever window states the cycles observe. -/
theorem runAlertCycles_inv (rules : List (String × AlertRule)) (site rn : String)
    (nx : ℤ) :
    ∀ (cycles : List (ℤ × StreamingWindow)) (cds : List (String × ℤ)),
      lookupM cds (cooldownKey site rn) = some nx →
      (∀ c ∈ cycles, c.1 < nx) →
      lookupM (runAlertCycles rules site cycles cds).1 (cooldownKey site rn) = some nx ∧
      ∀ a ∈ (runAlertCycles rules site cycles cds).2, a.alert_type ≠ rn := by
  intro cycles
  induction cycles with
  | nil =>
    intro cds h1 _
    exact ⟨h1, by simp [runAlertCycles]⟩
  | cons c rest ih =>
    intro cds h1 h2
    have hc := h2 c (List.mem_cons_self c rest)
    have hcycle := checkAlerts_inv rules site c.2 c.1 rn nx hc cds h1
    have hrest := ih (checkAlerts rules site c.2 cds c.1).1 hcycle.1
      (fun c' h => h2 c' (List.mem_cons_of_mem _ h))
    refine ⟨hrest.1, ?_⟩
    intro a ha
    simp only [runAlertCycles] at ha
    rcases List.mem_append.mp ha with h | h
    · exact hcycle.2 a h
    · exact hrest.2 a h

/-- C1: once rule `rn` has fired for tenant `site` at time `t` — so the
cooldown entry for `(site, rn)` holds `t + d` where `d` is the rule's
cooldown duration — no later `_check_alerts` cycle whose current time is
before `t + d` emits an alert of type `rn` for that site (whatever window
state each cycle observes, so in particular even if the triggering
condition holds continuously), and the cooldown entry survives unchanged. -/
theorem C1_cooldown_correctness (rules : List (String × AlertRule)) (site rn : String)
    (t d : ℤ) (cds : List (String × ℤ)) (cycles : List (ℤ × StreamingWindow))
    (hcd : lookupM cds (cooldownKey site rn) = some (t + d))
    (hcycles : ∀ c ∈ cycles, c.1 < t + d) :
    lookupM (runAlertCycles rules site cycles cds).1 (cooldownKey site rn) = some (t + d) ∧
    ∀ a ∈ (runAlertCycles rules site cycles cds).2, a.alert_type ≠ rn :=
  runAlertCycles_inv rules site rn (t + d) cycles cds hcd hcycles

/-- C1 witness: `server_error_spike` (cooldown 10 min) fires for `site-1` at
time 0 on a window whose error rate is 1; the cooldown map it produces
suppresses the rule at the later cycles 0 and 300 (< 600) although the
condition still holds, so no `server_error_spike` alert is emitted. -/
theorem C1_witness :
    ¬ ∃ a ∈ (runAlertCycles defaultAlertRules "site-1" [(0, wErr), (300, wErr)]
        (checkAlerts defaultAlertRules "site-1" wErr [] 0).1).2,
      a.alert_type = "server_error_spike" := by
  rintro ⟨a, ha, hat⟩
  exact (C1_cooldown_correctness defaultAlertRules "site-1" "server_error_spike" 0 600
      (checkAlerts defaultAlertRules "site-1" wErr [] 0).1
      [(0, wErr), (300, wErr)] (by decide) (by decide)).2 a ha hat

/-- Bounced sessions are a subset of the sessions. -/
theorem bouncedSessions_le (evs : List RealtimeEvent) :
    bouncedSessions evs ≤ (sessionIds evs).length :=
  List.length_filter_le _ _

/-- `_update_stream_metrics` does not touch the event buffer. -/
theorem updateStreamMetrics_events (stream : StreamingWindow) (now : ℤ) :
    (updateStreamMetrics stream now).events = stream.events := rfl

/-- `_update_stream_metrics` does not touch the capacity. -/
theorem updateStreamMetrics_window_size (stream : StreamingWindow) (now : ℤ) :
    (updateStreamMetrics stream now).window_size = stream.window_size := rfl

/-- The error rate written by `_update_stream_metrics`. -/
theorem updateStreamMetrics_error_rate (stream : StreamingWindow) (now : ℤ) :
    getM (updateStreamMetrics stream now).metrics "error_rate"
      = ratio ((recentEvents stream.events now).filter
            (fun e => e.event_type == "error" || e.is_error)).length
          (max (recentEvents stream.events now).length 1) := by
  simp only [updateStreamMetrics]
  exact getM_setM_self _ _ _

/-- The conversion rate written by `_update_stream_metrics`. -/
theorem updateStreamMetrics_conversion_rate (stream : StreamingWindow) (now : ℤ) :
    getM (updateStreamMetrics stream now).metrics "conversion_rate"
      = ratio ((recentEvents stream.events now).filter
            (fun e => conversionTypes.contains e.event_type)).length
          (max (recentEvents stream.events now).length 1) := by
  simp only [updateStreamMetrics]
  rw [getM_setM_ne _ _ _ _ (by decide)]
  exact getM_setM_self _ _ _

/-- The bounce rate after `_update_stream_metrics`: freshly computed when a
session is present, otherwise the previous snapshot value. -/
theorem updateStreamMetrics_bounce_rate (stream : StreamingWindow) (now : ℤ) :
    getM (updateStreamMetrics stream now).metrics "bounce_rate"
      = (if 0 < (sessionIds (recentEvents stream.events now)).length then
          ratio (bouncedSessions (recentEvents stream.events now))
            (sessionIds (recentEvents stream.events now)).length
        else getM stream.metrics "bounce_rate") := by
  simp only [updateStreamMetrics]
  rw [getM_setM_ne _ _ _ _ (by decide), getM_setM_ne _ _ _ _ (by decide)]
  by_cases hcond : 0 < (sessionIds (recentEvents stream.events now)).length
  · rw [if_pos hcond, if_pos hcond]
    exact getM_setM_self _ _ _
  · rw [if_neg hcond, if_neg hcond]
    rw [getM_setM_ne _ _ _ _ (by decide), getM_setM_ne _ _ _ _ (by decide),
      getM_setM_ne _ _ _ _ (by decide), getM_setM_ne _ _ _ _ (by decide)]

/-- Metric recomputation keeps the ratio metrics in `[0, 1]`. -/
theorem updateStreamMetrics_ratesBounded (stream : StreamingWindow) (now : ℤ)
    (h : RatesBounded stream.metrics) :
    RatesBounded (updateStreamMetrics stream now).metrics := by
  obtain ⟨hb0, hb1, hc0, hc1, he0, he1⟩ := h
  have hlen : ∀ p : RealtimeEvent → Bool,
      ((recentEvents stream.events now).filter p).length
        ≤ max (recentEvents stream.events now).length 1 :=
    fun p => le_trans (List.length_filter_le _ _) (le_max_left _ _)
  refine ⟨?_, ?_, ?_, ?_, ?_, ?_⟩
  · rw [updateStreamMetrics_bounce_rate]
    split
    · exact ratio_nonneg _ _
    · exact hb0
  · rw [updateStreamMetrics_bounce_rate]
    split
    · exact ratio_le_one _ _ (bouncedSessions_le _)
    · exact hb1
  · rw [updateStreamMetrics_conversion_rate]
    exact ratio_nonneg _ _
  · rw [updateStreamMetrics_conversion_rate]
    exact ratio_le_one _ _ (hlen _)
  · rw [updateStreamMetrics_error_rate]
    exact ratio_nonneg _ _
  · rw [updateStreamMetrics_error_rate]
    exact ratio_le_one _ _ (hlen _)

/-- `_process_events_batch` keeps a window well-formed. -/
theorem processSiteEvents_wf (w : StreamingWindow) (evs : List RealtimeEvent)
    (now : ℤ) (h : WindowWF w) : WindowWF (processSiteEvents w evs now) := by
  obtain ⟨hsize, hlen, hrates⟩ := h
  refine ⟨?_, ?_, ?_⟩
  · show (updateStreamMetrics _ now).window_size = 1000
    rw [updateStreamMetrics_window_size]
    exact hsize
  · show (updateStreamMetrics _ now).events.length ≤ 1000
    rw [updateStreamMetrics_events]
    show (evs.foldl (dequeAppend w.window_size) w.events).length ≤ 1000
    rw [hsize]
    exact foldl_dequeAppend_length_le 1000 evs (by omega) w.events (hsize ▸ hlen)
  · show RatesBounded (updateStreamMetrics _ now).metrics
    exact updateStreamMetrics_ratesBounded _ now hrates

/-- Every window is well-formed on a fresh registry entry. -/
theorem freshWindow_wf (now : ℤ) : WindowWF (freshWindow now) := by
  refine ⟨rfl, by simp [freshWindow], ?_⟩
  refine ⟨le_refl 0, ?_, le_refl 0, ?_, le_refl 0, ?_⟩ <;> norm_num [freshWindow, getM]

/-- Each operation preserves the service-state invariant. -/
theorem applyOp_stateWF (s : ServiceState) (op : Op) (h : StateWF s) :
    StateWF (applyOp s op) := by
  cases op with
  | start site now =>
    intro p hp
    simp only [applyOp, startRealtimeAnalysis] at hp
    cases hl : lookupM s.active_streams site with
    | some w =>
      rw [hl] at hp
      exact h p hp
    | none =>
      rw [hl] at hp
      rcases List.mem_append.mp hp with hmem | hmem
      · exact h p hmem
      · have hp' : p = (site, freshWindow now) := by simpa using hmem
        rw [hp']
        exact freshWindow_wf now
  | stop site =>
    intro p hp
    exact h p (List.mem_of_mem_filter hp)
  | ingest site raw now =>
    intro p hp
    exact h p hp
  | dispatch n now =>
    intro p hp
    simp only [applyOp, processEventsBatch] at hp
    rcases List.mem_map.mp hp with ⟨q, hq, heq⟩
    by_cases he : ((s.processing_queue.take n).filter (fun e => e.site_id == q.1)).isEmpty
    · rw [if_pos he] at heq
      rw [← heq]
      exact h q hq
    · rw [if_neg he] at heq
      rw [← heq]
      exact processSiteEvents_wf _ _ _ (h q hq)

/-- The invariant holds after any operation sequence from the fresh
service. -/
theorem runOps_stateWF (ops : List Op) : StateWF (runOps initialState ops) := by
  suffices hgen : ∀ (l : List Op) (s : ServiceState), StateWF s → StateWF (runOps s l) by
    refine hgen ops initialState ?_
    intro p hp
    simp [initialState] at hp
  intro l
  induction l with
  | nil => intro s hs; exact hs
  | cons op rest ih =>
    intro s hs
    exact ih _ (applyOp_stateWF s op hs)

/-- C3: after any sequence of session starts, session stops, ingests and
batch dispatches, every tenant's window buffers at most 1000 events. -/
theorem C3_bounded_window (ops : List Op) :
    ∀ p ∈ (runOps initialState ops).active_streams, p.2.events.length ≤ 1000 :=
  fun p hp => (runOps_stateWF ops p hp).2.1

/-- C3 witness: the window of `site-1` after the trace `ops3`. -/
theorem C3_witness :
    p3 ∈ (runOps initialState ops3).active_streams ∧ p3.2.events.length ≤ 1000 :=
  ⟨by decide, C3_bounded_window ops3 p3 (by decide)⟩

/-- C4: after any sequence of operations, the ratio-type metrics
`bounce_rate`, `conversion_rate` and `error_rate` of every tenant's window
lie in `[0, 1]`. -/
theorem C4_rate_bounds (ops : List Op) :
    ∀ p ∈ (runOps initialState ops).active_streams,
      0 ≤ getM p.2.metrics "bounce_rate" ∧ getM p.2.metrics "bounce_rate" ≤ 1 ∧
      0 ≤ getM p.2.metrics "conversion_rate" ∧ getM p.2.metrics "conversion_rate" ≤ 1 ∧
      0 ≤ getM p.2.metrics "error_rate" ∧ getM p.2.metrics "error_rate" ≤ 1 :=
  fun p hp => (runOps_stateWF ops p hp).2.2

/-- C4 witness: the rates of the `site-1` window after the trace `ops3`. -/
theorem C4_witness :
    p3 ∈ (runOps initialState ops3).active_streams ∧
    0 ≤ getM p3.2.metrics "bounce_rate" ∧ getM p3.2.metrics "bounce_rate" ≤ 1 ∧
    0 ≤ getM p3.2.metrics "conversion_rate" ∧ getM p3.2.metrics "conversion_rate" ≤ 1 ∧
    0 ≤ getM p3.2.metrics "error_rate" ∧ getM p3.2.metrics "error_rate" ≤ 1 :=
  ⟨by decide, C4_rate_bounds ops3 p3 (by decide)⟩

end RealtimeProcessor
